import Mathlib

set_option linter.dupNamespace false

/-
Verification of the AST builder (src/parse.rs) and the evaluator
(src/interp.rs) of the cmpsc-470-final expression language.

Modelling conventions:
- Rust `i64` is modelled as `Int`; arithmetic that Rust checks for
  overflow is modelled with an explicit range check producing a
  `panicked` outcome (the default dev profile of cargo enables
  overflow checks for `+`, `-`, `*`, and `/` panics on overflow,
  namely at `i64::MIN / -1`, in every profile).
- Rust `f64` is modelled as `Rat`.  Every float literal appearing in
  the verified claims (`0.0`, `1.0`, `2.0`) is exactly representable
  in `f64`, and no claim depends on rounding, infinities or NaN, so
  exact rational arithmetic is a faithful model on the inputs used.
  The check `b == 0.0` is modelled as `b = 0` (IEEE `-0.0 == 0.0`
  collapses to the single rational zero).
- `HashMap<String, Value>` is modelled as an association list looked
  up front to back; the evaluator receives the environment by `&mut`
  reference, which is modelled by threading the environment through
  every call and returning it next to the result.
- The `print!` side effects of `Display`/`Debug` are outside the
  result type of `interp` and are dropped; no claim mentions them.
-/

namespace Cmpsc470

/-- Atoms of the external s-expression reader (the `sexp` crate):
integer, float, or symbol. -/
inductive SAtom where
  | I (i : Int)
  | F (f : Rat)
  | S (s : String)
deriving DecidableEq

/-- Generic s-expressions consumed by the AST builder. -/
inductive Sexp where
  | Atom (a : SAtom)
  | List (l : List Sexp)

/-- The expression AST, `Exp` from src/parse.rs (one constructor per
Rust enum variant, children inlined instead of boxed). -/
inductive Exp where
  | Int (i : Int)
  | Float (f : Rat)
  | Id (s : String)
  | Add (lhs rhs : Exp)
  | Sub (lhs rhs : Exp)
  | Mult (lhs rhs : Exp)
  | Div (lhs rhs : Exp)
  | Lambda (symbol : String) (body : Exp)
  | App (func arg : Exp)
  | If (cond lhs rhs : Exp)
  | Eq (lhs rhs : Exp)
  | Gt (lhs rhs : Exp)
  | Ge (lhs rhs : Exp)
  | Lt (lhs rhs : Exp)
  | Le (lhs rhs : Exp)
  | Begin (exps : List Exp)
  | Bool (b : Bool)
  | Ref (e : Exp)
  | MutRef (e : Exp)
  | Box (e : Exp)
  | Unbox (e : Exp)
  | Deref (e : Exp)
  | Set (lhs rhs : Exp)
  | Display (e : Exp)
  | Debug (e : Exp)

/-- `ParseError` from src/parse.rs: `NotImplemented`, `ParseError`,
and `SexpError` (wrapping the reader's error, modelled as its
message). -/
inductive ParseError where
  | NotImplemented
  | ParseError
  | SexpError (msg : String)
deriving DecidableEq

mutual

/-- `parse` from src/parse.rs: dispatch on one s-expression. -/
def parse : Sexp → Except ParseError Exp
  | .Atom (.I i) => .ok (.Int i)
  | .Atom (.F f) => .ok (.Float f)
  | .Atom (.S s) =>
      if s = "true" then .ok (.Bool true)
      else if s = "false" then .ok (.Bool false)
      else .ok (.Id s)
  | .List l => parse_list l

/-- `parse_list` from src/parse.rs.  The Rust function is a single
`match` on `(first, &list[1..])` whose guarded arms are tried top to
bottom.  The translation first tests for a `begin` head (in the source
the `begin` arm matches a tail of any length, and its symbol is
disjoint from every operator tried before it), then dispatches on the
length of the tail; arms demanding tails of different lengths can
never both match, so this grouping preserves the source's selection
order:
- tail `[x]`: the seven unary operators, then the application arm
  `(func_exp, [arg])` (which also catches a non-symbol head; for a
  symbol head `func_exp` is that same `Atom(S(f))`);
- tail `[x, y]`: the nine binary operators, then `lambda` (demanding a
  symbol first argument — when a `lambda` head has a non-symbol first
  argument the source falls through past `set` (whose guard `f = "set"`
  cannot hold), past the application arm (which needs a list of length
  2) and past `if` (which needs a tail of length 3) to the final
  `ParseError` arm, so the fall-through is written out as that arm's
  result), then `set`;
- tail `[x, y, z]`: `if`;
- everything else falls through to `ParseError::ParseError`, and the
  empty list hits `list.first().ok_or(ParseError::NotImplemented)`. -/
def parse_list : List Sexp → Except ParseError Exp
  | [] => .error .NotImplemented
  | first :: rest =>
      match first with
      | .Atom (.S f) =>
          if f = "begin" then do .ok (.Begin (← parseAll rest))
          else
            match rest with
            | [x] =>
                if f = "ref" then do .ok (.Ref (← parse x))
                else if f = "mut-ref" then do .ok (.MutRef (← parse x))
                else if f = "box" then do .ok (.Box (← parse x))
                else if f = "unbox" then do .ok (.Unbox (← parse x))
                else if f = "deref" then do .ok (.Deref (← parse x))
                else if f = "display" then do .ok (.Display (← parse x))
                else if f = "debug" then do .ok (.Debug (← parse x))
                else do .ok (.App (← parse (.Atom (.S f))) (← parse x))
            | [x, y] =>
                if f = "+" then do .ok (.Add (← parse x) (← parse y))
                else if f = "-" then do .ok (.Sub (← parse x) (← parse y))
                else if f = "*" then do .ok (.Mult (← parse x) (← parse y))
                else if f = "/" then do .ok (.Div (← parse x) (← parse y))
                else if f = "=" then do .ok (.Eq (← parse x) (← parse y))
                else if f = "<" then do .ok (.Lt (← parse x) (← parse y))
                else if f = ">" then do .ok (.Gt (← parse x) (← parse y))
                else if f = "<=" then do .ok (.Le (← parse x) (← parse y))
                else if f = ">=" then do .ok (.Ge (← parse x) (← parse y))
                else if f = "lambda" then
                  match x with
                  | .Atom (.S symbol) => do .ok (.Lambda symbol (← parse y))
                  | _ => .error .ParseError
                else if f = "set" then do .ok (.Set (← parse x) (← parse y))
                else .error .ParseError
            | [x, y, z] =>
                if f = "if" then
                  do .ok (.If (← parse x) (← parse y) (← parse z))
                else .error .ParseError
            | _ => .error .ParseError
      | other =>
          match rest with
          | [x] => do .ok (.App (← parse other) (← parse x))
          | _ => .error .ParseError

/-- The `rest.iter().map(parse).collect()` of the `begin` arm. -/
def parseAll : List Sexp → Except ParseError (List Exp)
  | [] => .ok []
  | x :: xs => do .ok ((← parse x) :: (← parseAll xs))

end

/-- `Value` from src/interp.rs.  `Closure` captures the environment as
an association list (the model of `HashMap<String, Value>`);
`Box` carries a heap `Location` (a `usize` index); `Ref` and `MutRef`
wrap a value, exactly as `Ref(Box<Value>)` / `MutRef(Box<Value>)` do. -/
inductive Value where
  | Int (n : Int)
  | Float (f : Rat)
  | Bool (b : Bool)
  | Closure (arg : String) (body : Exp) (env : List (String × Value))
  | Box (l : Nat)
  | Ref (v : Value)
  | MutRef (v : Value)
  | Moved

/-- `Env = HashMap<String, Value>` modelled as an association list. -/
abbrev Env := List (String × Value)

/-- `HashMap::get` on the association-list model: first matching key. -/
def envGet : Env → String → Option Value
  | [], _ => none
  | (k, v) :: rest, s => if k = s then some v else envGet rest s

/-- `InterpError` from src/interp.rs — note that the enum has no
borrow-conflict, use-after-move or cant-unbox variant. -/
inductive InterpError where
  | NotImplemented (what : String)
  | NotANumber
  | IncompatibleTypes
  | ConditionNotBoolean
  | BranchTypeMismatch
  | DivisionByZero
  | CantDisplay
  | SymbolNotFound (s : String)
deriving DecidableEq

/-- A run of a Rust function either returns `Ok`, returns `Err`
(constructor `err`), or panics (constructor `panicked`) — the only
panics reachable in this interpreter are the arithmetic overflow
checks. -/
inductive RtError where
  | err (e : InterpError)
  | panicked (msg : String)
deriving DecidableEq

/-- Result type of one evaluator call. -/
abbrev Res := Except RtError Value

/-- The `i64` range. -/
def i64Min : Int := -(2 ^ 63)

/-- The `i64` range. -/
def i64Max : Int := 2 ^ 63 - 1

/-- Outcome of a checked `i64` arithmetic instruction: `cargo`'s
default dev profile compiles `+`, `-` and `*` with overflow checks,
so a result outside the `i64` range panics instead of wrapping. -/
def intArith (r : Int) : Res :=
  if i64Min ≤ r ∧ r ≤ i64Max then .ok (.Int r)
  else .error (.panicked ("attempt to compute with overflow"))

/-- The `|a, b| Value::Int(a + b)` closure passed for `Add`. -/
def addIntOp (a b : Int) : Res := intArith (a + b)

/-- The `|a, b| Value::Int(a - b)` closure passed for `Sub`. -/
def subIntOp (a b : Int) : Res := intArith (a - b)

/-- The `|a, b| Value::Int(a * b)` closure passed for `Mult`. -/
def multIntOp (a b : Int) : Res := intArith (a * b)

/-- `apply_numeric_op` from src/interp.rs: dispatch a binary numeric
operation on the operand variants.  The Rust closures return a bare
`Value` but may panic, hence the `Res`-valued operator arguments. -/
def apply_numeric_op (lhs rhs : Value)
    (int_op : Int → Int → Res) (float_op : Rat → Rat → Res) : Res :=
  match lhs, rhs with
  | .Int a, .Int b => int_op a b
  | .Float a, .Float b => float_op a b
  | .Int _, .Float _ => .error (.err .IncompatibleTypes)
  | .Float _, .Int _ => .error (.err .IncompatibleTypes)
  | _, _ => .error (.err .NotANumber)

/-- `apply_comparison` from src/interp.rs: wraps the boolean
operators and defers to `apply_numeric_op`. -/
def apply_comparison (lhs rhs : Value)
    (int_op : Int → Int → Bool) (float_op : Rat → Rat → Bool) : Res :=
  apply_numeric_op lhs rhs
    (fun a b => .ok (.Bool (int_op a b)))
    (fun a b => .ok (.Bool (float_op a b)))

/-- `div` from src/interp.rs.  The zero test guards the division; the
remaining `a / b` is Rust truncating division, which panics on its one
overflowing input `i64::MIN / -1` (in every build profile). -/
def div (lhs rhs : Value) : Res :=
  match lhs, rhs with
  | .Int a, .Int b =>
      if b = 0 then .error (.err .DivisionByZero)
      else if a = i64Min ∧ b = -1 then
        .error (.panicked ("attempt to divide with overflow"))
      else .ok (.Int (a.tdiv b))
  | .Float a, .Float b =>
      if b = 0 then .error (.err .DivisionByZero)
      else .ok (.Float (a / b))
  | .Int _, .Float _ => .error (.err .IncompatibleTypes)
  | .Float _, .Int _ => .error (.err .IncompatibleTypes)
  | _, _ => .error (.err .NotANumber)

/-- `eq` from src/interp.rs: defined on `(Int, Int)` only. -/
def eq (lhs rhs : Value) : Res :=
  match lhs, rhs with
  | .Int a, .Int b => .ok (.Bool (a == b))
  | _, _ => .error (.err .NotANumber)

/-- `check_same_type` from src/interp.rs: the six listed same-variant
pairs are accepted, everything else (including two `Closure`s or two
`Moved`s) is rejected. -/
def check_same_type (v1 v2 : Value) : Bool :=
  match v1, v2 with
  | .Int _, .Int _ => true
  | .Float _, .Float _ => true
  | .Bool _, .Bool _ => true
  | .Box _, .Box _ => true
  | .Ref _, .Ref _ => true
  | .MutRef _, .MutRef _ => true
  | _, _ => false

/-- The `?` operator on an evaluator call: on `Ok` continue with the
value and the threaded environment, on `Err` (or a panic) propagate. -/
def bindE (x : Res × Env) (f : Value → Env → Res × Env) : Res × Env :=
  match x with
  | (.error e, env) => (.error e, env)
  | (.ok v, env) => f v env

/-- `interp` from src/interp.rs.  The `&mut Env` parameter is modelled
by threading: the returned environment is the state of the borrowed
map when the call returns.  Arms appear in source order. -/
def interp : Exp → Env → Res × Env
  | .Int i, env => (.ok (.Int i), env)
  | .Float f, env => (.ok (.Float f), env)
  | .Bool b, env => (.ok (.Bool b), env)
  | .Add lhs rhs, env =>
      bindE (interp lhs env) fun lv env1 =>
        bindE (interp rhs env1) fun rv env2 =>
          (apply_numeric_op lv rv addIntOp
            (fun a b => .ok (.Float (a + b))), env2)
  | .Sub lhs rhs, env =>
      bindE (interp lhs env) fun lv env1 =>
        bindE (interp rhs env1) fun rv env2 =>
          (apply_numeric_op lv rv subIntOp
            (fun a b => .ok (.Float (a - b))), env2)
  | .Mult lhs rhs, env =>
      bindE (interp lhs env) fun lv env1 =>
        bindE (interp rhs env1) fun rv env2 =>
          (apply_numeric_op lv rv multIntOp
            (fun a b => .ok (.Float (a * b))), env2)
  | .Div lhs rhs, env =>
      bindE (interp lhs env) fun lv env1 =>
        bindE (interp rhs env1) fun rv env2 =>
          (div lv rv, env2)
  | .Eq lhs rhs, env =>
      bindE (interp lhs env) fun lv env1 =>
        bindE (interp rhs env1) fun rv env2 =>
          (eq lv rv, env2)
  | .Gt lhs rhs, env =>
      bindE (interp lhs env) fun lv env1 =>
        bindE (interp rhs env1) fun rv env2 =>
          (apply_comparison lv rv
            (fun a b => decide (a > b)) (fun a b => decide (a > b)), env2)
  | .Ge lhs rhs, env =>
      bindE (interp lhs env) fun lv env1 =>
        bindE (interp rhs env1) fun rv env2 =>
          (apply_comparison lv rv
            (fun a b => decide (a ≥ b)) (fun a b => decide (a ≥ b)), env2)
  | .Lt lhs rhs, env =>
      bindE (interp lhs env) fun lv env1 =>
        bindE (interp rhs env1) fun rv env2 =>
          (apply_comparison lv rv
            (fun a b => decide (a < b)) (fun a b => decide (a < b)), env2)
  | .Le lhs rhs, env =>
      bindE (interp lhs env) fun lv env1 =>
        bindE (interp rhs env1) fun rv env2 =>
          (apply_comparison lv rv
            (fun a b => decide (a ≤ b)) (fun a b => decide (a ≤ b)), env2)
  | .If cond lhs rhs, env =>
      bindE (interp cond env) fun condVal env1 =>
        match condVal with
        | .Bool test =>
            bindE (interp lhs env1) fun lhsVal env2 =>
              bindE (interp rhs env2) fun rhsVal env3 =>
                if check_same_type lhsVal rhsVal then
                  (.ok (if test then lhsVal else rhsVal), env3)
                else (.error (.err .BranchTypeMismatch), env3)
        | _ => (.error (.err .ConditionNotBoolean), env1)
  | .Debug e, env =>
      bindE (interp e env) fun v env1 => (.ok v, env1)
  | .Display e, env =>
      bindE (interp e env) fun v env1 =>
        match v with
        | .Int _ => (.ok v, env1)
        | .Float _ => (.ok v, env1)
        | .Bool _ => (.ok v, env1)
        | _ => (.error (.err .CantDisplay), env1)
  | .Id s, env =>
      (match envGet env s with
       | some v => .ok v
       | none => .error (.err (.SymbolNotFound s)), env)
  | .Lambda _ _, env => (.error (.err (.NotImplemented ("Lambda"))), env)
  | .App _ _, env => (.error (.err (.NotImplemented ("App"))), env)
  | .Begin _, env => (.error (.err (.NotImplemented ("Begin"))), env)
  | .Ref _, env => (.error (.err (.NotImplemented ("Ref"))), env)
  | .MutRef _, env => (.error (.err (.NotImplemented ("MutRef"))), env)
  | .Box _, env => (.error (.err (.NotImplemented ("Box"))), env)
  | .Unbox _, env => (.error (.err (.NotImplemented ("Unbox"))), env)
  | .Deref _, env => (.error (.err (.NotImplemented ("Deref"))), env)
  | .Set _ _, env => (.error (.err (.NotImplemented ("Set"))), env)

/-- A value of numeric variant (`Int` or `Float`). -/
def isNumeric (v : Value) : Bool :=
  match v with
  | .Int _ => true
  | .Float _ => true
  | _ => false

/-- A mixed `(Int, Float)` or `(Float, Int)` operand pair. -/
def mixedPair (lv rv : Value) : Bool :=
  match lv, rv with
  | .Int _, .Float _ => true
  | .Float _, .Int _ => true
  | _, _ => false

/-- Spec-side definition for claim C6 (it is compared against the
source's `check_same_type`, it does not model any source function):
two values are of the "same variant family" when they are built from
the same `Value` constructor. -/
def sameVariantFamily (v1 v2 : Value) : Bool :=
  match v1, v2 with
  | .Int _, .Int _ => true
  | .Float _, .Float _ => true
  | .Bool _, .Bool _ => true
  | .Closure _ _ _, .Closure _ _ _ => true
  | .Box _, .Box _ => true
  | .Ref _, .Ref _ => true
  | .MutRef _, .MutRef _ => true
  | .Moved, .Moved => true
  | _, _ => false

/-- A value of `Int` variant. -/
def isIntV (v : Value) : Bool :=
  match v with
  | .Int _ => true
  | _ => false

/-- A value that is neither a `Closure` nor `Moved` (the variants
`check_same_type` has no accepting arm for). -/
def notClosureOrMoved (v : Value) : Bool :=
  match v with
  | .Closure _ _ _ => false
  | .Moved => false
  | _ => true

/-- Claim C7, first error clause, for one binary operator node: once
both operands evaluate to values, a mixed int/float pair makes the
operation fail with `IncompatibleTypes`. -/
def binopMixedProp (mk : Exp → Exp → Exp) : Prop :=
  ∀ (l r : Exp) (env : Env) (lv rv : Value),
    (interp l env).1 = .ok lv → (interp r env).1 = .ok rv →
    mixedPair lv rv = true →
    (interp (mk l r) env).1 = .error (.err .IncompatibleTypes)

/-- Claim C7, second error clause, for one binary operator node: once
both operands evaluate to values, a pair containing a non-numeric
value makes the operation fail with `NotANumber`. -/
def binopNaNProp (mk : Exp → Exp → Exp) : Prop :=
  ∀ (l r : Exp) (env : Env) (lv rv : Value),
    (interp l env).1 = .ok lv → (interp r env).1 = .ok rv →
    (isNumeric lv = false ∨ isNumeric rv = false) →
    (interp (mk l r) env).1 = .error (.err .NotANumber)

/-!  Helper lemmas (shared by several claims). -/

theorem bindE_snd (x : Res × Env) (f : Value → Env → Res × Env) (env : Env)
    (hx : x.2 = env) (hf : ∀ v, (f v env).2 = env) : (bindE x f).2 = env := by
  obtain ⟨r, e2⟩ := x
  simp only at hx
  subst hx
  cases r with
  | error e => rfl
  | ok v => exact hf v

/-- The evaluator never writes to the environment it borrows: the
threaded-out environment is the threaded-in one, for every expression
(the only environment accesses in the source are `env.get` and passing
the same `&mut` reference on to recursive calls). -/
theorem interp_env_eq : (e : Exp) → (env : Env) → (interp e env).2 = env
  | .Int _, _ => rfl
  | .Float _, _ => rfl
  | .Bool _, _ => rfl
  | .Add l r, env =>
      bindE_snd _ _ _ (interp_env_eq l env) fun _ =>
        bindE_snd _ _ _ (interp_env_eq r env) fun _ => rfl
  | .Sub l r, env =>
      bindE_snd _ _ _ (interp_env_eq l env) fun _ =>
        bindE_snd _ _ _ (interp_env_eq r env) fun _ => rfl
  | .Mult l r, env =>
      bindE_snd _ _ _ (interp_env_eq l env) fun _ =>
        bindE_snd _ _ _ (interp_env_eq r env) fun _ => rfl
  | .Div l r, env =>
      bindE_snd _ _ _ (interp_env_eq l env) fun _ =>
        bindE_snd _ _ _ (interp_env_eq r env) fun _ => rfl
  | .Eq l r, env =>
      bindE_snd _ _ _ (interp_env_eq l env) fun _ =>
        bindE_snd _ _ _ (interp_env_eq r env) fun _ => rfl
  | .Gt l r, env =>
      bindE_snd _ _ _ (interp_env_eq l env) fun _ =>
        bindE_snd _ _ _ (interp_env_eq r env) fun _ => rfl
  | .Ge l r, env =>
      bindE_snd _ _ _ (interp_env_eq l env) fun _ =>
        bindE_snd _ _ _ (interp_env_eq r env) fun _ => rfl
  | .Lt l r, env =>
      bindE_snd _ _ _ (interp_env_eq l env) fun _ =>
        bindE_snd _ _ _ (interp_env_eq r env) fun _ => rfl
  | .Le l r, env =>
      bindE_snd _ _ _ (interp_env_eq l env) fun _ =>
        bindE_snd _ _ _ (interp_env_eq r env) fun _ => rfl
  | .If c l r, env =>
      bindE_snd _ _ _ (interp_env_eq c env) fun cv => by
        cases cv <;> try rfl
        exact bindE_snd _ _ _ (interp_env_eq l env) fun lv =>
          bindE_snd _ _ _ (interp_env_eq r env) fun rv => by
            by_cases h : check_same_type lv rv <;> simp [h]
  | .Debug e, env =>
      bindE_snd _ _ _ (interp_env_eq e env) fun _ => rfl
  | .Display e, env =>
      bindE_snd _ _ _ (interp_env_eq e env) fun v => by cases v <;> rfl
  | .Id s, env => rfl
  | .Lambda _ _, _ => rfl
  | .App _ _, _ => rfl
  | .Begin _, _ => rfl
  | .Ref _, _ => rfl
  | .MutRef _, _ => rfl
  | .Box _, _ => rfl
  | .Unbox _, _ => rfl
  | .Deref _, _ => rfl
  | .Set _ _, _ => rfl

theorem interp_pair (e : Exp) (env : Env) :
    interp e env = ((interp e env).1, env) := by
  have h := interp_env_eq e env
  cases hh : interp e env with
  | mk r e2 =>
      rw [hh] at h
      simp only at h
      subst h
      rfl

theorem interp_ok {e : Exp} {env : Env} {v : Value}
    (h : (interp e env).1 = .ok v) : interp e env = (.ok v, env) := by
  conv_lhs => rw [interp_pair e env]
  rw [h]

theorem interp_err {e : Exp} {env : Env} {er : RtError}
    (h : (interp e env).1 = .error er) : interp e env = (.error er, env) := by
  conv_lhs => rw [interp_pair e env]
  rw [h]

/-- Reduction of a two-operand evaluator arm when both operands
evaluate to values. -/
theorem bindE2_fst (l r : Exp) (env : Env) (lv rv : Value)
    (k : Value → Value → Res)
    (hl : (interp l env).1 = .ok lv) (hr : (interp r env).1 = .ok rv) :
    (bindE (interp l env) fun a env1 =>
      bindE (interp r env1) fun b env2 => (k a b, env2)).1 = k lv rv := by
  rw [interp_ok hl]
  simp only [bindE]
  rw [interp_ok hr]

theorem apply_numeric_op_mixed (io : Int → Int → Res) (fo : Rat → Rat → Res)
    (lv rv : Value) (h : mixedPair lv rv = true) :
    apply_numeric_op lv rv io fo = .error (.err .IncompatibleTypes) := by
  cases lv <;> cases rv <;> simp_all [apply_numeric_op, mixedPair]

theorem apply_numeric_op_nan (io : Int → Int → Res) (fo : Rat → Rat → Res)
    (lv rv : Value) (h : isNumeric lv = false ∨ isNumeric rv = false) :
    apply_numeric_op lv rv io fo = .error (.err .NotANumber) := by
  cases lv <;> cases rv <;> simp_all [apply_numeric_op, isNumeric]

theorem div_mixed (lv rv : Value) (h : mixedPair lv rv = true) :
    div lv rv = .error (.err .IncompatibleTypes) := by
  cases lv <;> cases rv <;> simp_all [div, mixedPair]

theorem div_nan (lv rv : Value) (h : isNumeric lv = false ∨ isNumeric rv = false) :
    div lv rv = .error (.err .NotANumber) := by
  cases lv <;> cases rv <;> simp_all [div, isNumeric]

theorem interp_add_fst (l r : Exp) (env : Env) (lv rv : Value)
    (hl : (interp l env).1 = .ok lv) (hr : (interp r env).1 = .ok rv) :
    (interp (.Add l r) env).1 =
      apply_numeric_op lv rv addIntOp (fun a b => .ok (.Float (a + b))) :=
  bindE2_fst l r env lv rv _ hl hr

theorem interp_sub_fst (l r : Exp) (env : Env) (lv rv : Value)
    (hl : (interp l env).1 = .ok lv) (hr : (interp r env).1 = .ok rv) :
    (interp (.Sub l r) env).1 =
      apply_numeric_op lv rv subIntOp (fun a b => .ok (.Float (a - b))) :=
  bindE2_fst l r env lv rv _ hl hr

theorem interp_mult_fst (l r : Exp) (env : Env) (lv rv : Value)
    (hl : (interp l env).1 = .ok lv) (hr : (interp r env).1 = .ok rv) :
    (interp (.Mult l r) env).1 =
      apply_numeric_op lv rv multIntOp (fun a b => .ok (.Float (a * b))) :=
  bindE2_fst l r env lv rv _ hl hr

theorem interp_div_fst (l r : Exp) (env : Env) (lv rv : Value)
    (hl : (interp l env).1 = .ok lv) (hr : (interp r env).1 = .ok rv) :
    (interp (.Div l r) env).1 = div lv rv :=
  bindE2_fst l r env lv rv _ hl hr

theorem interp_eq_fst (l r : Exp) (env : Env) (lv rv : Value)
    (hl : (interp l env).1 = .ok lv) (hr : (interp r env).1 = .ok rv) :
    (interp (.Eq l r) env).1 = eq lv rv :=
  bindE2_fst l r env lv rv _ hl hr

theorem interp_gt_fst (l r : Exp) (env : Env) (lv rv : Value)
    (hl : (interp l env).1 = .ok lv) (hr : (interp r env).1 = .ok rv) :
    (interp (.Gt l r) env).1 =
      apply_comparison lv rv
        (fun a b => decide (a > b)) (fun a b => decide (a > b)) :=
  bindE2_fst l r env lv rv _ hl hr

theorem interp_ge_fst (l r : Exp) (env : Env) (lv rv : Value)
    (hl : (interp l env).1 = .ok lv) (hr : (interp r env).1 = .ok rv) :
    (interp (.Ge l r) env).1 =
      apply_comparison lv rv
        (fun a b => decide (a ≥ b)) (fun a b => decide (a ≥ b)) :=
  bindE2_fst l r env lv rv _ hl hr

theorem interp_lt_fst (l r : Exp) (env : Env) (lv rv : Value)
    (hl : (interp l env).1 = .ok lv) (hr : (interp r env).1 = .ok rv) :
    (interp (.Lt l r) env).1 =
      apply_comparison lv rv
        (fun a b => decide (a < b)) (fun a b => decide (a < b)) :=
  bindE2_fst l r env lv rv _ hl hr

theorem interp_le_fst (l r : Exp) (env : Env) (lv rv : Value)
    (hl : (interp l env).1 = .ok lv) (hr : (interp r env).1 = .ok rv) :
    (interp (.Le l r) env).1 =
      apply_comparison lv rv
        (fun a b => decide (a ≤ b)) (fun a b => decide (a ≤ b)) :=
  bindE2_fst l r env lv rv _ hl hr

/-!  Claim theorems. -/

/-- Claim C9: the evaluator never modifies the environment it is
given — for every expression and environment, after `interp` returns
(whether with a value, an error, or a modelled panic) the environment
component of the result equals the environment passed in; the
evaluator only reads bindings (`env.get`) and clones looked-up
values. -/
theorem C9_env_unchanged (e : Exp) (env : Env) : (interp e env).2 = env :=
  interp_env_eq e env

/-- Claim C1 counterexample: the claim quantifies over all `i64`
inputs with `b ≠ 0`, but at `a = i64::MIN`, `b = -1` the guarded
division `a / b` overflows and panics (`2^63` is not an `i64`), so
evaluation does not return `Int(a / b)`. -/
theorem C1_counterexample :
    (interp (.Div (.Int i64Min) (.Int (-1))) []).1 =
      .error (.panicked ("attempt to divide with overflow")) := rfl

/-- Claim C1 (amended): for all `i64` values `a, b` with `b ≠ 0` other
than the overflowing pair `(i64::MIN, -1)`, `Div(Int(a), Int(b))`
evaluates to `Int(a / b)` with truncating division; the pair
`(i64::MIN, -1)` panics on the division itself; for an `Int`–`Int`
pair a zero right operand fails `DivisionByZero` for every left
operand value, and likewise for a `Float`–`Float` pair with right
operand `0.0` — in both cases the zero check fires before any
division (an unguarded `a / 0` would panic, yet the result is the
`DivisionByZero` error value). -/
theorem C1_div_semantics :
    (∀ (a b : Int) (env : Env), i64Min ≤ a → a ≤ i64Max →
      i64Min ≤ b → b ≤ i64Max → b ≠ 0 → ¬(a = i64Min ∧ b = -1) →
      (interp (.Div (.Int a) (.Int b)) env).1 = .ok (.Int (a.tdiv b)))
    ∧ (∀ (a : Int) (env : Env),
      (interp (.Div (.Int a) (.Int 0)) env).1 = .error (.err .DivisionByZero))
    ∧ (∀ (q : Rat) (env : Env),
      (interp (.Div (.Float q) (.Float 0)) env).1 =
        .error (.err .DivisionByZero)) := by
  refine ⟨fun a b env _ _ _ _ hb0 hno => ?p1, fun a env => ?p2, fun q env => ?p3⟩
  case p1 =>
    have h : (interp (.Div (.Int a) (.Int b)) env).1 = div (.Int a) (.Int b) :=
      bindE2_fst (.Int a) (.Int b) env (.Int a) (.Int b) div rfl rfl
    rw [h]
    simp [div, hb0, hno]
  case p2 =>
    have h : (interp (.Div (.Int a) (.Int 0)) env).1 = div (.Int a) (.Int 0) :=
      bindE2_fst (.Int a) (.Int 0) env (.Int a) (.Int 0) div rfl rfl
    rw [h]
    simp [div]
  case p3 =>
    have h : (interp (.Div (.Float q) (.Float 0)) env).1 = div (.Float q) (.Float 0) :=
      bindE2_fst (.Float q) (.Float 0) env (.Float q) (.Float 0) div rfl rfl
    rw [h]
    simp [div]

/-- Witness for C1_div_semantics at `7 / 2 = 3`. -/
theorem C1_div_semantics_witness :
    (interp (.Div (.Int 7) (.Int 2)) []).1 = .ok (.Int 3) := by
  have h := C1_div_semantics.1 7 2 [] (by decide) (by decide) (by decide)
    (by decide) (by decide) (by decide)
  exact h.trans rfl

/-- Claim C3 counterexample: `Unbox(Box(Int(5)))` in the empty
environment does not evaluate to `Int(5)`; it fails with
`NotImplemented("Unbox")`. -/
theorem C3_counterexample :
    (interp (.Unbox (.Box (.Int 5))) []).1 =
        .error (.err (.NotImplemented ("Unbox")))
    ∧ (interp (.Unbox (.Box (.Int 5))) []).1 ≠ .ok (.Int 5) :=
  ⟨rfl, fun h => Except.noConfusion h⟩

/-- Claim C3 (amended): the `Unbox` arm of the evaluator is an
unimplemented stub — evaluating `Unbox(inner)` fails with
`NotImplemented("Unbox")` for every inner expression and environment
(as does the `Box` arm with `NotImplemented("Box")`), so the box/unbox
round-trip `eval(Unbox(Box(Int(5)))) == Int(5)` does not hold. -/
theorem C3_unbox_stub :
    (∀ (e : Exp) (env : Env),
      (interp (.Unbox e) env).1 = .error (.err (.NotImplemented ("Unbox"))))
    ∧ (∀ (e : Exp) (env : Env),
      (interp (.Box e) env).1 = .error (.err (.NotImplemented ("Box")))) :=
  ⟨fun _ _ => rfl, fun _ _ => rfl⟩

/-- Claim C4 counterexample: the first evaluation of `MutRef` on a
box does not succeed (and `Ref` does not succeed either): both forms
are unimplemented stubs, so no `BorrowConflict` behaviour exists. -/
theorem C4_counterexample :
    (interp (.MutRef (.Box (.Int 5))) []).1 =
        .error (.err (.NotImplemented ("MutRef")))
    ∧ (interp (.Ref (.Box (.Int 5))) []).1 =
        .error (.err (.NotImplemented ("Ref"))) :=
  ⟨rfl, rfl⟩

/-- Claim C4 (amended): `Ref`, `MutRef` and `Box` are unimplemented
stubs — every evaluation of them fails with the corresponding
`NotImplemented` error, no borrow state is tracked, and the
`InterpError` enum has no `BorrowConflict` variant at all (its only
variants are `NotImplemented`, `NotANumber`, `IncompatibleTypes`,
`ConditionNotBoolean`, `BranchTypeMismatch`, `DivisionByZero`,
`CantDisplay` and `SymbolNotFound`). -/
theorem C4_borrow_stub :
    (∀ (e : Exp) (env : Env),
      (interp (.MutRef e) env).1 = .error (.err (.NotImplemented ("MutRef"))))
    ∧ (∀ (e : Exp) (env : Env),
      (interp (.Ref e) env).1 = .error (.err (.NotImplemented ("Ref"))))
    ∧ (∀ (e : Exp) (env : Env),
      (interp (.Box e) env).1 = .error (.err (.NotImplemented ("Box"))))
    ∧ (∀ er : InterpError,
      (∃ s, er = .NotImplemented s) ∨ er = .NotANumber
      ∨ er = .IncompatibleTypes ∨ er = .ConditionNotBoolean
      ∨ er = .BranchTypeMismatch ∨ er = .DivisionByZero
      ∨ er = .CantDisplay ∨ (∃ s, er = .SymbolNotFound s)) := by
  refine ⟨fun _ _ => rfl, fun _ _ => rfl, fun _ _ => rfl, fun er => ?enum⟩
  case enum => cases er <;> simp

/-- Claim C5 counterexample: `NotImplemented` is reachable — already
the evaluation of a bare lambda returns it. -/
theorem C5_counterexample :
    (interp (.Lambda ("x") (.Id ("x"))) []).1 =
      .error (.err (.NotImplemented ("Lambda"))) := rfl

/-- Claim C5 (amended): far from having zero reachable
`NotImplemented` cases, the evaluator returns `NotImplemented` for
every expression of the nine stubbed kinds (`Lambda`, `App`, `Begin`,
`Ref`, `MutRef`, `Box`, `Unbox`, `Deref`, `Set`) in every environment,
and the AST builder returns its `NotImplemented` parse error for the
empty list. -/
theorem C5_not_implemented_reachable :
    (∀ (s : String) (b : Exp) (env : Env),
      (interp (.Lambda s b) env).1 = .error (.err (.NotImplemented ("Lambda"))))
    ∧ (∀ (f a : Exp) (env : Env),
      (interp (.App f a) env).1 = .error (.err (.NotImplemented ("App"))))
    ∧ (∀ (es : List Exp) (env : Env),
      (interp (.Begin es) env).1 = .error (.err (.NotImplemented ("Begin"))))
    ∧ (∀ (e : Exp) (env : Env),
      (interp (.Ref e) env).1 = .error (.err (.NotImplemented ("Ref"))))
    ∧ (∀ (e : Exp) (env : Env),
      (interp (.MutRef e) env).1 = .error (.err (.NotImplemented ("MutRef"))))
    ∧ (∀ (e : Exp) (env : Env),
      (interp (.Box e) env).1 = .error (.err (.NotImplemented ("Box"))))
    ∧ (∀ (e : Exp) (env : Env),
      (interp (.Unbox e) env).1 = .error (.err (.NotImplemented ("Unbox"))))
    ∧ (∀ (e : Exp) (env : Env),
      (interp (.Deref e) env).1 = .error (.err (.NotImplemented ("Deref"))))
    ∧ (∀ (l r : Exp) (env : Env),
      (interp (.Set l r) env).1 = .error (.err (.NotImplemented ("Set"))))
    ∧ parse_list [] = .error .NotImplemented :=
  ⟨fun _ _ _ => rfl, fun _ _ _ => rfl, fun _ _ => rfl, fun _ _ => rfl,
   fun _ _ => rfl, fun _ _ => rfl, fun _ _ => rfl, fun _ _ => rfl,
   fun _ _ _ => rfl, rfl⟩

/-- Claim C2 counterexample: the AST builder does not desugar `let` —
parsing the well-formed `(let ((x 5)) x)` yields the generic
`ParseError::ParseError` instead of the claimed
`App{func: Lambda{..}, arg: ..}`. -/
theorem C2_counterexample :
    parse (.List [.Atom (.S ("let")),
        .List [.List [.Atom (.S ("x")), .Atom (.I 5)]],
        .Atom (.S ("x"))]) = .error .ParseError
    ∧ ∀ e : Exp,
      parse (.List [.Atom (.S ("let")),
          .List [.List [.Atom (.S ("x")), .Atom (.I 5)]],
          .Atom (.S ("x"))]) ≠ .ok e :=
  ⟨rfl, fun _ h => Except.noConfusion h⟩

/-- Claim C2 (amended): `let` is not recognised by the AST builder at
all — every three-element list headed by the symbol `let` parses to
the generic `ParseError::ParseError`, whatever the other two elements
are, and the `ParseError` enum has no dedicated malformed-binding
variant (its only variants are `NotImplemented`, `ParseError` and the
reader wrapper `SexpError`). -/
theorem C2_let_unrecognised :
    (∀ (a b : Sexp),
      parse_list [.Atom (.S ("let")), a, b] = .error .ParseError)
    ∧ (∀ pe : ParseError,
      pe = .NotImplemented ∨ pe = .ParseError ∨ ∃ m, pe = .SexpError m) := by
  refine ⟨fun a b => rfl, fun pe => ?enum⟩
  case enum => cases pe <;> simp

/-- Claim C8: equality is defined only over `(Int, Int)` pairs, where
it returns `Bool(a == b)`; every other pairing — including
`(Float, Float)` and `(Bool, Bool)` — fails with `NotANumber`; and the
`Eq` evaluator arm applies `eq` to the two operand values. -/
theorem C8_eq_int_only :
    (∀ a b : Int, eq (.Int a) (.Int b) = .ok (.Bool (a == b)))
    ∧ (∀ lv rv : Value, isIntV lv = false ∨ isIntV rv = false →
      eq lv rv = .error (.err .NotANumber))
    ∧ (∀ p q : Rat, eq (.Float p) (.Float q) = .error (.err .NotANumber))
    ∧ (∀ p q : Bool, eq (.Bool p) (.Bool q) = .error (.err .NotANumber))
    ∧ (∀ (l r : Exp) (env : Env) (lv rv : Value),
      (interp l env).1 = .ok lv → (interp r env).1 = .ok rv →
      (interp (.Eq l r) env).1 = eq lv rv) := by
  refine ⟨fun a b => rfl, fun lv rv h => ?nan, fun p q => rfl, fun p q => rfl,
    fun l r env lv rv hl hr => interp_eq_fst l r env lv rv hl hr⟩
  case nan => cases lv <;> cases rv <;> simp_all [eq, isIntV]

/-- Witness for C8_eq_int_only: a `(Float, Float)` pair through the
non-Int clause, and a concrete `Eq` evaluation. -/
theorem C8_eq_int_only_witness :
    eq (.Float 1) (.Bool true) = .error (.err .NotANumber)
    ∧ (interp (.Eq (.Int 2) (.Int 2)) []).1 = .ok (.Bool true) :=
  ⟨C8_eq_int_only.2.1 (.Float 1) (.Bool true) (Or.inl rfl),
   (C8_eq_int_only.2.2.2.2 (.Int 2) (.Int 2) [] (.Int 2) (.Int 2)
     rfl rfl).trans rfl⟩

/-- Claim C6 counterexample: two branch values of the same variant
family (both `Closure`) still fail with `BranchTypeMismatch`, because
`check_same_type` has no accepting arm for closures — so "fails
exactly when the variant families differ" is false. -/
theorem C6_counterexample :
    (interp (.Id ("f"))
        [("f", Value.Closure ("a") (.Int 1) []),
         ("g", Value.Closure ("b") (.Int 2) [])]).1 =
      .ok (Value.Closure ("a") (.Int 1) [])
    ∧ (interp (.Id ("g"))
        [("f", Value.Closure ("a") (.Int 1) []),
         ("g", Value.Closure ("b") (.Int 2) [])]).1 =
      .ok (Value.Closure ("b") (.Int 2) [])
    ∧ sameVariantFamily (Value.Closure ("a") (.Int 1) [])
        (Value.Closure ("b") (.Int 2) []) = true
    ∧ (interp (.If (.Bool true) (.Id ("f")) (.Id ("g")))
        [("f", Value.Closure ("a") (.Int 1) []),
         ("g", Value.Closure ("b") (.Int 2) [])]).1 =
      .error (.err .BranchTypeMismatch) :=
  ⟨rfl, rfl, rfl, rfl⟩

/-- Claim C6 (amended): the condition is evaluated first and a
non-`Bool` condition value fails `ConditionNotBoolean` without the
branches influencing the result; with a `Bool` condition both branches
are evaluated unconditionally (an error in either propagates even when
the other branch would be selected); when both branches produce
values, the result is `BranchTypeMismatch` unless `check_same_type`
accepts them, which happens exactly for same-variant pairs of the six
variants `Int`, `Float`, `Bool`, `Box`, `Ref`, `MutRef` (same-variant
`Closure` or `Moved` pairs are also rejected); otherwise the `lhs`
value is returned when the condition is true and the `rhs` value when
it is false; in particular `If(Bool(true), Int(1), Float(1.0))` fails
`BranchTypeMismatch`. -/
theorem C6_if_semantics :
    (∀ (c l r : Exp) (env : Env) (cv : Value),
      (interp c env).1 = .ok cv → (∀ t, cv ≠ .Bool t) →
      (interp (.If c l r) env).1 = .error (.err .ConditionNotBoolean))
    ∧ (∀ (c l r : Exp) (env : Env) (t : Bool) (e : RtError),
      (interp c env).1 = .ok (.Bool t) → (interp l env).1 = .error e →
      (interp (.If c l r) env).1 = .error e)
    ∧ (∀ (c l r : Exp) (env : Env) (t : Bool) (lv : Value) (e : RtError),
      (interp c env).1 = .ok (.Bool t) → (interp l env).1 = .ok lv →
      (interp r env).1 = .error e →
      (interp (.If c l r) env).1 = .error e)
    ∧ (∀ (c l r : Exp) (env : Env) (t : Bool) (lv rv : Value),
      (interp c env).1 = .ok (.Bool t) → (interp l env).1 = .ok lv →
      (interp r env).1 = .ok rv →
      (interp (.If c l r) env).1 =
        (if check_same_type lv rv then .ok (if t then lv else rv)
         else .error (.err .BranchTypeMismatch)))
    ∧ (∀ v w : Value,
      check_same_type v w = (sameVariantFamily v w && notClosureOrMoved v))
    ∧ ((interp (.If (.Bool true) (.Int 1) (.Float 1)) []).1 =
        .error (.err .BranchTypeMismatch)) := by
  refine ⟨fun c l r env cv hc hnb => ?p1, fun c l r env t e hc hl => ?p2,
    fun c l r env t lv e hc hl hr => ?p3, fun c l r env t lv rv hc hl hr => ?p4,
    fun v w => by cases v <;> cases w <;> rfl, rfl⟩
  case p1 =>
    simp only [interp]
    rw [interp_ok hc]
    simp only [bindE]
  case p2 =>
    simp only [interp]
    rw [interp_ok hc]
    simp only [bindE]
    rw [interp_err hl]
  case p3 =>
    simp only [interp]
    rw [interp_ok hc]
    simp only [bindE]
    rw [interp_ok hl]
    simp only [bindE]
    rw [interp_err hr]
  case p4 =>
    simp only [interp]
    rw [interp_ok hc]
    simp only [bindE]
    rw [interp_ok hl]
    simp only [bindE]
    rw [interp_ok hr]
    simp only [bindE]
    by_cases h : check_same_type lv rv <;> simp [h]

/-- Witness for C6_if_semantics: a concrete selection and a concrete
non-boolean condition. -/
theorem C6_if_semantics_witness :
    (interp (.If (.Bool true) (.Int 1) (.Int 2)) []).1 = .ok (.Int 1)
    ∧ (interp (.If (.Int 0) (.Int 1) (.Int 2)) []).1 =
        .error (.err .ConditionNotBoolean) :=
  ⟨(C6_if_semantics.2.2.2.1 (.Bool true) (.Int 1) (.Int 2) [] true
      (.Int 1) (.Int 2) rfl rfl rfl).trans rfl,
   C6_if_semantics.1 (.Int 0) (.Int 1) (.Int 2) [] (.Int 0) rfl
     (fun _ h => Value.noConfusion h)⟩

/-- Claim C7: for each of the eight binary arithmetic and comparison
operations (`Add`, `Sub`, `Mult`, `Div`, `Gt`, `Ge`, `Lt`, `Le`), once
both operands evaluate to values: a mixed `(Int, Float)` or
`(Float, Int)` pair fails `IncompatibleTypes` (no coercion), a pair
containing a non-numeric value fails `NotANumber`, an `(Int, Int)`
pair is computed by the integer operator (the overflow-checked `i64`
operation, or the guarded integer division) and a `(Float, Float)`
pair by the float operator. -/
theorem C7_binop_dispatch :
    (binopMixedProp .Add ∧ binopMixedProp .Sub ∧ binopMixedProp .Mult
      ∧ binopMixedProp .Div ∧ binopMixedProp .Gt ∧ binopMixedProp .Ge
      ∧ binopMixedProp .Lt ∧ binopMixedProp .Le)
    ∧ (binopNaNProp .Add ∧ binopNaNProp .Sub ∧ binopNaNProp .Mult
      ∧ binopNaNProp .Div ∧ binopNaNProp .Gt ∧ binopNaNProp .Ge
      ∧ binopNaNProp .Lt ∧ binopNaNProp .Le)
    ∧ (∀ (l r : Exp) (env : Env) (a b : Int),
      (interp l env).1 = .ok (.Int a) → (interp r env).1 = .ok (.Int b) →
      (interp (.Add l r) env).1 = intArith (a + b)
      ∧ (interp (.Sub l r) env).1 = intArith (a - b)
      ∧ (interp (.Mult l r) env).1 = intArith (a * b)
      ∧ (interp (.Gt l r) env).1 = .ok (.Bool (decide (a > b)))
      ∧ (interp (.Ge l r) env).1 = .ok (.Bool (decide (a ≥ b)))
      ∧ (interp (.Lt l r) env).1 = .ok (.Bool (decide (a < b)))
      ∧ (interp (.Le l r) env).1 = .ok (.Bool (decide (a ≤ b)))
      ∧ (b ≠ 0 → ¬(a = i64Min ∧ b = -1) →
          (interp (.Div l r) env).1 = .ok (.Int (a.tdiv b))))
    ∧ (∀ (l r : Exp) (env : Env) (p q : Rat),
      (interp l env).1 = .ok (.Float p) → (interp r env).1 = .ok (.Float q) →
      (interp (.Add l r) env).1 = .ok (.Float (p + q))
      ∧ (interp (.Sub l r) env).1 = .ok (.Float (p - q))
      ∧ (interp (.Mult l r) env).1 = .ok (.Float (p * q))
      ∧ (interp (.Gt l r) env).1 = .ok (.Bool (decide (p > q)))
      ∧ (interp (.Ge l r) env).1 = .ok (.Bool (decide (p ≥ q)))
      ∧ (interp (.Lt l r) env).1 = .ok (.Bool (decide (p < q)))
      ∧ (interp (.Le l r) env).1 = .ok (.Bool (decide (p ≤ q)))
      ∧ (q ≠ 0 → (interp (.Div l r) env).1 = .ok (.Float (p / q)))) := by
  refine ⟨⟨?ma, ?ms, ?mm, ?md, ?mgt, ?mge, ?mlt, ?mle⟩,
    ⟨?na, ?ns, ?nm, ?nd, ?ngt, ?nge, ?nlt, ?nle⟩,
    fun l r env a b hl hr => ?ints, fun l r env p q hl hr => ?floats⟩
  case ma => intro l r env lv rv hl hr hm
             rw [interp_add_fst l r env lv rv hl hr]
             exact apply_numeric_op_mixed _ _ _ _ hm
  case ms => intro l r env lv rv hl hr hm
             rw [interp_sub_fst l r env lv rv hl hr]
             exact apply_numeric_op_mixed _ _ _ _ hm
  case mm => intro l r env lv rv hl hr hm
             rw [interp_mult_fst l r env lv rv hl hr]
             exact apply_numeric_op_mixed _ _ _ _ hm
  case md => intro l r env lv rv hl hr hm
             rw [interp_div_fst l r env lv rv hl hr]
             exact div_mixed _ _ hm
  case mgt => intro l r env lv rv hl hr hm
              rw [interp_gt_fst l r env lv rv hl hr]
              exact apply_numeric_op_mixed _ _ _ _ hm
  case mge => intro l r env lv rv hl hr hm
              rw [interp_ge_fst l r env lv rv hl hr]
              exact apply_numeric_op_mixed _ _ _ _ hm
  case mlt => intro l r env lv rv hl hr hm
              rw [interp_lt_fst l r env lv rv hl hr]
              exact apply_numeric_op_mixed _ _ _ _ hm
  case mle => intro l r env lv rv hl hr hm
              rw [interp_le_fst l r env lv rv hl hr]
              exact apply_numeric_op_mixed _ _ _ _ hm
  case na => intro l r env lv rv hl hr hn
             rw [interp_add_fst l r env lv rv hl hr]
             exact apply_numeric_op_nan _ _ _ _ hn
  case ns => intro l r env lv rv hl hr hn
             rw [interp_sub_fst l r env lv rv hl hr]
             exact apply_numeric_op_nan _ _ _ _ hn
  case nm => intro l r env lv rv hl hr hn
             rw [interp_mult_fst l r env lv rv hl hr]
             exact apply_numeric_op_nan _ _ _ _ hn
  case nd => intro l r env lv rv hl hr hn
             rw [interp_div_fst l r env lv rv hl hr]
             exact div_nan _ _ hn
  case ngt => intro l r env lv rv hl hr hn
              rw [interp_gt_fst l r env lv rv hl hr]
              exact apply_numeric_op_nan _ _ _ _ hn
  case nge => intro l r env lv rv hl hr hn
              rw [interp_ge_fst l r env lv rv hl hr]
              exact apply_numeric_op_nan _ _ _ _ hn
  case nlt => intro l r env lv rv hl hr hn
              rw [interp_lt_fst l r env lv rv hl hr]
              exact apply_numeric_op_nan _ _ _ _ hn
  case nle => intro l r env lv rv hl hr hn
              rw [interp_le_fst l r env lv rv hl hr]
              exact apply_numeric_op_nan _ _ _ _ hn
  case ints =>
    refine ⟨(interp_add_fst l r env (.Int a) (.Int b) hl hr).trans rfl,
      (interp_sub_fst l r env (.Int a) (.Int b) hl hr).trans rfl,
      (interp_mult_fst l r env (.Int a) (.Int b) hl hr).trans rfl,
      (interp_gt_fst l r env (.Int a) (.Int b) hl hr).trans rfl,
      (interp_ge_fst l r env (.Int a) (.Int b) hl hr).trans rfl,
      (interp_lt_fst l r env (.Int a) (.Int b) hl hr).trans rfl,
      (interp_le_fst l r env (.Int a) (.Int b) hl hr).trans rfl,
      fun hb hno => (interp_div_fst l r env (.Int a) (.Int b) hl hr).trans
        (by simp [div, hb, hno])⟩
  case floats =>
    refine ⟨(interp_add_fst l r env (.Float p) (.Float q) hl hr).trans rfl,
      (interp_sub_fst l r env (.Float p) (.Float q) hl hr).trans rfl,
      (interp_mult_fst l r env (.Float p) (.Float q) hl hr).trans rfl,
      (interp_gt_fst l r env (.Float p) (.Float q) hl hr).trans rfl,
      (interp_ge_fst l r env (.Float p) (.Float q) hl hr).trans rfl,
      (interp_lt_fst l r env (.Float p) (.Float q) hl hr).trans rfl,
      (interp_le_fst l r env (.Float p) (.Float q) hl hr).trans rfl,
      fun hq => (interp_div_fst l r env (.Float p) (.Float q) hl hr).trans
        (by simp [div, hq])⟩

/-- Witness for C7_binop_dispatch: a mixed `Add`, a non-numeric `Le`,
and the two dispatch clauses at concrete operands. -/
theorem C7_binop_dispatch_witness :
    (interp (.Add (.Int 1) (.Float 2)) []).1 = .error (.err .IncompatibleTypes)
    ∧ (interp (.Le (.Bool true) (.Int 0)) []).1 = .error (.err .NotANumber)
    ∧ (interp (.Add (.Int 2) (.Int 3)) []).1 = intArith (2 + 3)
    ∧ (interp (.Add (.Float 2) (.Float 3)) []).1 = .ok (.Float (2 + 3)) :=
  ⟨C7_binop_dispatch.1.1 (.Int 1) (.Float 2) [] (.Int 1) (.Float 2)
      rfl rfl rfl,
   C7_binop_dispatch.2.1.2.2.2.2.2.2.2 (.Bool true) (.Int 0) []
      (.Bool true) (.Int 0) rfl rfl (Or.inl rfl),
   (C7_binop_dispatch.2.2.1 (.Int 2) (.Int 3) [] 2 3 rfl rfl).1,
   (C7_binop_dispatch.2.2.2 (.Float 2) (.Float 3) [] 2 3 rfl rfl).1⟩

/-- Claim C10: a two-element list whose head is not one of the eight
symbols `ref`, `mut-ref`, `box`, `unbox`, `deref`, `display`, `debug`,
`begin` parses as `App{func, arg}` whenever both sub-parses succeed —
so wrong-arity operator lists such as `(+ 5)` or `(if x)` do not fail
but become applications of the operator identifier. -/
theorem C10_two_element_app :
    ∀ (first arg : Sexp) (ef ea : Exp),
      (∀ s, first = .Atom (.S s) →
        s ∉ (["ref", "mut-ref", "box", "unbox", "deref", "display",
              "debug", "begin"] : List String)) →
      parse first = .ok ef → parse arg = .ok ea →
      parse_list [first, arg] = .ok (.App ef ea) := by
  intro first arg ef ea hex hf ha
  cases first with
  | List l =>
      simp [parse_list, Except.bind, bind, hf, ha]
  | Atom a =>
      cases a with
      | I i =>
          simp only [parse] at hf
          injection hf with h
          subst h
          simp [parse_list, parse, Except.bind, bind, ha]
      | F x =>
          simp only [parse] at hf
          injection hf with h
          subst h
          simp [parse_list, parse, Except.bind, bind, ha]
      | S s =>
          have hmem := hex s rfl
          simp only [List.mem_cons, List.not_mem_nil, or_false] at hmem
          push_neg at hmem
          obtain ⟨h1, h2, h3, h4, h5, h6, h7, h8⟩ := hmem
          simp [parse_list, Except.bind, bind, h1, h2, h3, h4, h5, h6, h7, h8,
            hf, ha]

/-- Witness for C10_two_element_app: `(+ 5)` parses as the application
of the identifier `+` to `5`. -/
theorem C10_two_element_app_witness :
    parse_list [.Atom (.S ("+")), .Atom (.I 5)] =
      .ok (.App (.Id ("+")) (.Int 5)) :=
  C10_two_element_app (.Atom (.S ("+"))) (.Atom (.I 5)) (.Id ("+")) (.Int 5)
    (fun s hs => by cases hs; decide) rfl rfl

end Cmpsc470
